import Mathlib

/-!
Shallow embedding of the cyclescope-secular pipeline core:
JSON values, key normalization (OpenAIAssistant.normalizeKeys),
the flattening of a 3-layer analysis payload onto the relational row
(Database.mapAnalysisToRow), the keyed upsert (Database.saveAnalysis),
the analyze and download HTTP handlers, the assistant poll loop, the
capture retry wrapper, and the date-directory listing utilities.
-/

/-- JSON values as produced/consumed by the pipeline.  JS `undefined`
is represented by `Option.none` at use sites; `JValue.null` is JSON null. -/
inductive JValue where
  | null : JValue
  | bool (b : Bool) : JValue
  | num (q : ℚ) : JValue
  | str (s : String) : JValue
  | arr (xs : List JValue) : JValue
  | obj (fields : List (String × JValue)) : JValue
deriving Repr

mutual

def JValue.beq : JValue → JValue → Bool
  | .null, .null => true
  | .bool a, .bool b => a == b
  | .num a, .num b => a == b
  | .str a, .str b => a == b
  | .arr a, .arr b => JValue.beqList a b
  | .obj a, .obj b => JValue.beqFields a b
  | _, _ => false

def JValue.beqList : List JValue → List JValue → Bool
  | [], [] => true
  | x :: xs, y :: ys => JValue.beq x y && JValue.beqList xs ys
  | _, _ => false

def JValue.beqFields : List (String × JValue) → List (String × JValue) → Bool
  | [], [] => true
  | (k, v) :: xs, (k', v') :: ys => k == k' && JValue.beq v v' && JValue.beqFields xs ys
  | _, _ => false

end

instance : BEq JValue := ⟨JValue.beq⟩

mutual

theorem JValue.beq_eq : ∀ a b : JValue, JValue.beq a b = true → a = b
  | .null, .null, _ => rfl
  | .bool a, .bool b, h => by simpa [JValue.beq] using congrArg JValue.bool (by simpa [JValue.beq] using h)
  | .num a, .num b, h => by
      have : a = b := by simpa [JValue.beq] using h
      simp [this]
  | .str a, .str b, h => by
      have : a = b := by simpa [JValue.beq] using h
      simp [this]
  | .arr a, .arr b, h => by
      have : a = b := JValue.beqList_eq a b (by simpa [JValue.beq] using h)
      simp [this]
  | .obj a, .obj b, h => by
      have : a = b := JValue.beqFields_eq a b (by simpa [JValue.beq] using h)
      simp [this]

theorem JValue.beqList_eq : ∀ a b : List JValue, JValue.beqList a b = true → a = b
  | [], [], _ => rfl
  | x :: xs, y :: ys, h => by
      have h' := h
      simp only [JValue.beqList, Bool.and_eq_true] at h'
      have h1 : x = y := JValue.beq_eq x y h'.1
      have h2 : xs = ys := JValue.beqList_eq xs ys h'.2
      simp [h1, h2]

theorem JValue.beqFields_eq : ∀ a b : List (String × JValue), JValue.beqFields a b = true → a = b
  | [], [], _ => rfl
  | (k, v) :: xs, (k', v') :: ys, h => by
      have h' := h
      simp only [JValue.beqFields, Bool.and_eq_true, beq_iff_eq] at h'
      have h1 : k = k' := h'.1.1
      have h2 : v = v' := JValue.beq_eq v v' h'.1.2
      have h3 : xs = ys := JValue.beqFields_eq xs ys h'.2
      simp [h1, h2, h3]

end

mutual

theorem JValue.beq_refl : ∀ a : JValue, JValue.beq a a = true
  | .null => rfl
  | .bool a => by simp [JValue.beq]
  | .num a => by simp [JValue.beq]
  | .str a => by simp [JValue.beq]
  | .arr a => by simpa [JValue.beq] using JValue.beqList_refl a
  | .obj a => by simpa [JValue.beq] using JValue.beqFields_refl a

theorem JValue.beqList_refl : ∀ a : List JValue, JValue.beqList a a = true
  | [] => rfl
  | x :: xs => by
      simp only [JValue.beqList, Bool.and_eq_true]
      exact ⟨JValue.beq_refl x, JValue.beqList_refl xs⟩

theorem JValue.beqFields_refl : ∀ a : List (String × JValue), JValue.beqFields a a = true
  | [] => rfl
  | (k, v) :: xs => by
      simp only [JValue.beqFields, Bool.and_eq_true, beq_self_eq_true, true_and]
      exact ⟨JValue.beq_refl v, JValue.beqFields_refl xs⟩

end

instance : DecidableEq JValue := fun a b =>
  if h : JValue.beq a b = true then
    .isTrue (JValue.beq_eq a b h)
  else
    .isFalse (fun hab => h (hab ▸ JValue.beq_refl a))

/-- Look up a key in a JSON object's field list (first match, as JS
property lookup on the object literals built here). -/
def lookupField : List (String × JValue) → String → Option JValue
  | [], _ => none
  | (k, v) :: rest, key => if k = key then some v else lookupField rest key

/-- `v?.key` — optional chaining property access: `none` models JS
`undefined` (absent property, or access through undefined/null). -/
def jget (v : Option JValue) (key : String) : Option JValue :=
  match v with
  | some (.obj fields) => lookupField fields key
  | _ => none

/-- `v?.[i]` — optional chaining array index. -/
def jidx (v : Option JValue) (i : ℕ) : Option JValue :=
  match v with
  | some (.arr xs) => xs.get? i
  | _ => none

/-- JS falsiness of a possibly-undefined value: `undefined`, `null`,
`false`, `0` and `""` are falsy. -/
def jFalsy : Option JValue → Bool
  | none => true
  | some .null => true
  | some (.bool b) => !b
  | some (.num q) => q == 0
  | some (.str s) => s == ""
  | some (.arr _) => false
  | some (.obj _) => false

/-- JS property assignment `o[k] = v` on an object: replaces the value in
place when the key exists, otherwise appends the new key at the end. -/
def setKey : List (String × JValue) → String → JValue → List (String × JValue)
  | [], k, v => [(k, v)]
  | (k', v') :: rest, k, v =>
      if k' = k then (k, v) :: rest else (k', v') :: setKey rest k v

/-- `analysis.k = v` where `analysis` is an object (as in the /analyze
handler's `analysis.original_chart_url = chartPath`). -/
def jset (v : JValue) (k : String) (x : JValue) : JValue :=
  match v with
  | .obj fields => .obj (setKey fields k x)
  | other => other

/-- `key.replace(/[ _]/g, '').toLowerCase()` — delete every space and
underscore, then lower-case. -/
def normKey (s : String) : String :=
  ⟨(s.data.filter (fun c => c ≠ ' ' ∧ c ≠ '_')).map Char.toLower⟩

/-- `OpenAIAssistant.normalizeKeys`: rebuild the object with every
top-level key normalized by `normKey`, values untouched; later entries
overwrite earlier ones whose keys collide after normalization. -/
def normalizeKeys (fields : List (String × JValue)) : List (String × JValue) :=
  fields.foldl (fun acc kv => setKey acc (normKey kv.fst) kv.snd) []

/-- The flat `secular_analysis` row produced by `Database.mapAnalysisToRow`:
one field per data column (54 fields).  `none` models JS `undefined`,
`some JValue.null` JS `null`; both are bound as SQL NULL. -/
structure RowData where
  asof_date : Option JValue
  secular_trend : Option JValue
  secular_regime_status : Option JValue
  channel_position : Option JValue
  recent_behavior_summary : Option JValue
  interpretation : Option JValue
  risk_bias : Option JValue
  summary_signal : Option JValue
  dominant_dynamics : Option JValue
  overall_bias : Option JValue
  secular_summary : Option JValue
  scenario1_id : Option JValue
  scenario1_name : Option JValue
  scenario1_probability : Option JValue
  scenario1_path_summary : Option JValue
  scenario1_technical_logic : Option JValue
  scenario1_target_zone : Option JValue
  scenario1_expected_move_min : Option JValue
  scenario1_expected_move_max : Option JValue
  scenario1_risk_profile : Option JValue
  scenario2_id : Option JValue
  scenario2_name : Option JValue
  scenario2_probability : Option JValue
  scenario2_path_summary : Option JValue
  scenario2_technical_logic : Option JValue
  scenario2_target_zone : Option JValue
  scenario2_expected_move_min : Option JValue
  scenario2_expected_move_max : Option JValue
  scenario2_risk_profile : Option JValue
  scenario3_id : Option JValue
  scenario3_name : Option JValue
  scenario3_probability : Option JValue
  scenario3_path_summary : Option JValue
  scenario3_technical_logic : Option JValue
  scenario3_target_zone : Option JValue
  scenario3_expected_move_min : Option JValue
  scenario3_expected_move_max : Option JValue
  scenario3_risk_profile : Option JValue
  scenario4_id : Option JValue
  scenario4_name : Option JValue
  scenario4_probability : Option JValue
  scenario4_path_summary : Option JValue
  scenario4_technical_logic : Option JValue
  scenario4_target_zone : Option JValue
  scenario4_expected_move_min : Option JValue
  scenario4_expected_move_max : Option JValue
  scenario4_risk_profile : Option JValue
  scenario_summary_1 : Option JValue
  scenario_summary_2 : Option JValue
  scenario_summary_3 : Option JValue
  scenario_summary_4 : Option JValue
  primary_message : Option JValue
  original_chart_url : Option JValue
  annotated_chart_url : Option JValue
deriving Repr, DecidableEq

/-- Truthiness of the `subfield` argument of the source's `getScenario`
helper (`null` default, or a numeric index): JS `if (subfield)` is false
for `null` and for `0`. -/
def subfieldTruthy : Option ℕ → Bool
  | none => false
  | some n => n != 0

/-- The source's inner helper
`getScenario(index, field, subfield = null)`:
returns JS null for a falsy (missing) scenario; when `subfield` is
truthy, indexes `scenario[field]?.[subfield]`; otherwise returns
`scenario[field]` — note that a `subfield` of `0` is falsy in JS, so it
falls through to the whole-field branch. -/
def getScenario (scenarios : List JValue) (index : ℕ) (field : String)
    (subfield : Option ℕ) : Option JValue :=
  let scenario := scenarios.get? index
  if jFalsy scenario then some JValue.null
  else if subfieldTruthy subfield then jidx (jget scenario field) (subfield.getD 0)
  else jget scenario field

/-- The scenarios sequence extracted by `mapAnalysisToRow`:
`layer2?.scenario_analysis?.scenarios || []`, modelled for array (or
falsy) scenario containers; a truthy non-array container is out of
scope of the claims. -/
def scenariosOf (analysis : JValue) : List JValue :=
  match jget (jget (jget (some analysis) "layer2") "scenario_analysis") "scenarios" with
  | some (.arr xs) => xs
  | _ => []

/-- `Database.mapAnalysisToRow`: flatten the 3-layer analysis object onto
the 54 data columns.  The function is total: a scenarios sequence of any
length maps without error. -/
def mapAnalysisToRow (analysis : JValue) : RowData :=
  let layer1 := jget (some analysis) "layer1"
  let layer2 := jget (some analysis) "layer2"
  let layer3 := jget (some analysis) "layer3"
  let ocu := jget (some analysis) "original_chart_url"
  let acu := jget (some analysis) "annotated_chart_url"
  let scenarios : List JValue := scenariosOf analysis
  { asof_date := jget layer1 "asof_date"
    secular_trend := jget layer1 "secular_trend"
    secular_regime_status := jget layer1 "secular_regime_status"
    channel_position := jget layer1 "channel_position"
    recent_behavior_summary := jget layer1 "recent_behavior_summary"
    interpretation := jget layer1 "interpretation"
    risk_bias := jget layer1 "risk_bias"
    summary_signal := jget layer1 "summary_signal"
    dominant_dynamics := jget (jget layer2 "scenario_analysis") "dominant_dynamics"
    overall_bias := jget (jget layer2 "scenario_analysis") "overall_bias"
    secular_summary := jget (jget layer2 "scenario_analysis") "secular_summary"
    scenario1_id := getScenario scenarios 0 "scenario_id" none
    scenario1_name := getScenario scenarios 0 "name" none
    scenario1_probability := getScenario scenarios 0 "probability" none
    scenario1_path_summary := getScenario scenarios 0 "path_summary" none
    scenario1_technical_logic := getScenario scenarios 0 "technical_logic" none
    scenario1_target_zone := getScenario scenarios 0 "target_zone_description" none
    scenario1_expected_move_min := getScenario scenarios 0 "expected_move_percent" (some 0)
    scenario1_expected_move_max := getScenario scenarios 0 "expected_move_percent" (some 1)
    scenario1_risk_profile := getScenario scenarios 0 "risk_profile" none
    scenario2_id := getScenario scenarios 1 "scenario_id" none
    scenario2_name := getScenario scenarios 1 "name" none
    scenario2_probability := getScenario scenarios 1 "probability" none
    scenario2_path_summary := getScenario scenarios 1 "path_summary" none
    scenario2_technical_logic := getScenario scenarios 1 "technical_logic" none
    scenario2_target_zone := getScenario scenarios 1 "target_zone_description" none
    scenario2_expected_move_min := getScenario scenarios 1 "expected_move_percent" (some 0)
    scenario2_expected_move_max := getScenario scenarios 1 "expected_move_percent" (some 1)
    scenario2_risk_profile := getScenario scenarios 1 "risk_profile" none
    scenario3_id := getScenario scenarios 2 "scenario_id" none
    scenario3_name := getScenario scenarios 2 "name" none
    scenario3_probability := getScenario scenarios 2 "probability" none
    scenario3_path_summary := getScenario scenarios 2 "path_summary" none
    scenario3_technical_logic := getScenario scenarios 2 "technical_logic" none
    scenario3_target_zone := getScenario scenarios 2 "target_zone_description" none
    scenario3_expected_move_min := getScenario scenarios 2 "expected_move_percent" (some 0)
    scenario3_expected_move_max := getScenario scenarios 2 "expected_move_percent" (some 1)
    scenario3_risk_profile := getScenario scenarios 2 "risk_profile" none
    scenario4_id := getScenario scenarios 3 "scenario_id" none
    scenario4_name := getScenario scenarios 3 "name" none
    scenario4_probability := getScenario scenarios 3 "probability" none
    scenario4_path_summary := getScenario scenarios 3 "path_summary" none
    scenario4_technical_logic := getScenario scenarios 3 "technical_logic" none
    scenario4_target_zone := getScenario scenarios 3 "target_zone_description" none
    scenario4_expected_move_min := getScenario scenarios 3 "expected_move_percent" (some 0)
    scenario4_expected_move_max := getScenario scenarios 3 "expected_move_percent" (some 1)
    scenario4_risk_profile := getScenario scenarios 3 "risk_profile" none
    scenario_summary_1 := jidx (jget layer3 "scenario_summary") 0
    scenario_summary_2 := jidx (jget layer3 "scenario_summary") 1
    scenario_summary_3 := jidx (jget layer3 "scenario_summary") 2
    scenario_summary_4 := jidx (jget layer3 "scenario_summary") 3
    primary_message := jget layer3 "primary_message"
    original_chart_url := if jFalsy ocu then some JValue.null else ocu
    annotated_chart_url := if jFalsy acu then some JValue.null else acu }

/-- PostgreSQL NUMERIC rounding to `scale` fractional digits
(round half away from zero). -/
def pgRound (scale : ℕ) (q : ℚ) : ℚ :=
  if 0 ≤ q then (⌊q * 10 ^ scale + 1 / 2⌋ : ℚ) / 10 ^ scale
  else -((⌊-q * 10 ^ scale + 1 / 2⌋ : ℚ) / 10 ^ scale)

/-- SQL binding of a JS value: both `undefined` and `null` become SQL
NULL. -/
def sqlCast (x : Option JValue) : Option JValue :=
  match x with
  | some .null => none
  | x => x

/-- The value a DECIMAL(p,scale) column stores for a bindable
parameter: numbers are rounded to `scale` fractional digits;
`undefined`/`null` become NULL.  Non-numeric, non-null values never
reach storage: `saveAnalysis` aborts the whole statement first (see
`decimalBindable`), so the catch-all arm is inert. -/
def decimalCast (scale : ℕ) (x : Option JValue) : Option JValue :=
  match x with
  | some (.num q) => some (.num (pgRound scale q))
  | some .null => none
  | x => x

/-- A JS value binds into a DECIMAL parameter only when it is a number
or null/undefined.  A JS array (as `getScenario` produces for the min
column), an object or a boolean serializes to text PostgreSQL rejects
for a numeric column, aborting the whole INSERT.  (A string holding
numeric syntax would be coerced by PostgreSQL; no payload in this
development carries strings in DECIMAL columns, so the model keeps
them outside the bindable family.) -/
def decimalBindable : Option JValue → Bool
  | none => true
  | some JValue.null => true
  | some (JValue.num _) => true
  | _ => false

/-- The mapped row binds cleanly into the INSERT's DECIMAL(5,4) and
DECIMAL(6,2) parameters (the 12 scenario probability / expected-move
columns). -/
def rowBindable (r : RowData) : Bool :=
  decimalBindable r.scenario1_probability &&
  decimalBindable r.scenario1_expected_move_min &&
  decimalBindable r.scenario1_expected_move_max &&
  decimalBindable r.scenario2_probability &&
  decimalBindable r.scenario2_expected_move_min &&
  decimalBindable r.scenario2_expected_move_max &&
  decimalBindable r.scenario3_probability &&
  decimalBindable r.scenario3_expected_move_min &&
  decimalBindable r.scenario3_expected_move_max &&
  decimalBindable r.scenario4_probability &&
  decimalBindable r.scenario4_expected_move_min &&
  decimalBindable r.scenario4_expected_move_max

/-- Column typing applied by the INSERT: probabilities are DECIMAL(5,4),
expected moves DECIMAL(6,2); every other data column keeps its value
(with `undefined`/`null` collapsed to SQL NULL). -/
def applyColumnTypes (r : RowData) : RowData :=
  { asof_date := sqlCast r.asof_date
    secular_trend := sqlCast r.secular_trend
    secular_regime_status := sqlCast r.secular_regime_status
    channel_position := sqlCast r.channel_position
    recent_behavior_summary := sqlCast r.recent_behavior_summary
    interpretation := sqlCast r.interpretation
    risk_bias := sqlCast r.risk_bias
    summary_signal := sqlCast r.summary_signal
    dominant_dynamics := sqlCast r.dominant_dynamics
    overall_bias := sqlCast r.overall_bias
    secular_summary := sqlCast r.secular_summary
    scenario1_id := sqlCast r.scenario1_id
    scenario1_name := sqlCast r.scenario1_name
    scenario1_probability := decimalCast 4 r.scenario1_probability
    scenario1_path_summary := sqlCast r.scenario1_path_summary
    scenario1_technical_logic := sqlCast r.scenario1_technical_logic
    scenario1_target_zone := sqlCast r.scenario1_target_zone
    scenario1_expected_move_min := decimalCast 2 r.scenario1_expected_move_min
    scenario1_expected_move_max := decimalCast 2 r.scenario1_expected_move_max
    scenario1_risk_profile := sqlCast r.scenario1_risk_profile
    scenario2_id := sqlCast r.scenario2_id
    scenario2_name := sqlCast r.scenario2_name
    scenario2_probability := decimalCast 4 r.scenario2_probability
    scenario2_path_summary := sqlCast r.scenario2_path_summary
    scenario2_technical_logic := sqlCast r.scenario2_technical_logic
    scenario2_target_zone := sqlCast r.scenario2_target_zone
    scenario2_expected_move_min := decimalCast 2 r.scenario2_expected_move_min
    scenario2_expected_move_max := decimalCast 2 r.scenario2_expected_move_max
    scenario2_risk_profile := sqlCast r.scenario2_risk_profile
    scenario3_id := sqlCast r.scenario3_id
    scenario3_name := sqlCast r.scenario3_name
    scenario3_probability := decimalCast 4 r.scenario3_probability
    scenario3_path_summary := sqlCast r.scenario3_path_summary
    scenario3_technical_logic := sqlCast r.scenario3_technical_logic
    scenario3_target_zone := sqlCast r.scenario3_target_zone
    scenario3_expected_move_min := decimalCast 2 r.scenario3_expected_move_min
    scenario3_expected_move_max := decimalCast 2 r.scenario3_expected_move_max
    scenario3_risk_profile := sqlCast r.scenario3_risk_profile
    scenario4_id := sqlCast r.scenario4_id
    scenario4_name := sqlCast r.scenario4_name
    scenario4_probability := decimalCast 4 r.scenario4_probability
    scenario4_path_summary := sqlCast r.scenario4_path_summary
    scenario4_technical_logic := sqlCast r.scenario4_technical_logic
    scenario4_target_zone := sqlCast r.scenario4_target_zone
    scenario4_expected_move_min := decimalCast 2 r.scenario4_expected_move_min
    scenario4_expected_move_max := decimalCast 2 r.scenario4_expected_move_max
    scenario4_risk_profile := sqlCast r.scenario4_risk_profile
    scenario_summary_1 := sqlCast r.scenario_summary_1
    scenario_summary_2 := sqlCast r.scenario_summary_2
    scenario_summary_3 := sqlCast r.scenario_summary_3
    scenario_summary_4 := sqlCast r.scenario_summary_4
    primary_message := sqlCast r.primary_message
    original_chart_url := sqlCast r.original_chart_url
    annotated_chart_url := sqlCast r.annotated_chart_url }

/-- One stored row of `secular_analysis`: SERIAL id, the 54 data
columns, and the two timestamps. -/
structure StoredRow where
  id : ℕ
  data : RowData
  created_at : ℕ
  updated_at : ℕ
deriving Repr, DecidableEq

/-- The `secular_analysis` table: rows plus the SERIAL sequence. -/
structure TableState where
  rows : List StoredRow
  nextId : ℕ
deriving Repr, DecidableEq

def emptyTable : TableState := ⟨[], 1⟩

/-- `Database.saveAnalysis`: map the analysis to a row and run the
single upsert keyed on `asof_date`.  When a DECIMAL column receives a
value PostgreSQL cannot parse as numeric (for instance the whole
`expected_move_percent` array the subfield-0 slip produces), the
statement aborts: nothing is written and the error propagates to the
caller.  Otherwise, on conflict every data column is overwritten with
the incoming (EXCLUDED) value and `updated_at` is set to the statement
timestamp; `id` and `created_at` are left untouched.  Without conflict
a fresh row is inserted with both timestamps at `now`.  Returns the
new table state and the RETURNING row. -/
def saveAnalysis (st : TableState) (now : ℕ) (analysis : JValue) :
    Except String (TableState × StoredRow) :=
  let rawRow := mapAnalysisToRow analysis
  if rowBindable rawRow then
    let row := applyColumnTypes rawRow
    match st.rows.find? (fun r => decide (r.data.asof_date = row.asof_date)) with
    | some r =>
        let updated : StoredRow :=
          ⟨r.id, { row with asof_date := r.data.asof_date }, r.created_at, now⟩
        .ok (⟨st.rows.map (fun x =>
            if x.data.asof_date = row.asof_date then updated else x), st.nextId⟩,
          updated)
    | none =>
        let inserted : StoredRow := ⟨st.nextId, row, now, now⟩
        .ok (⟨st.rows ++ [inserted], st.nextId + 1⟩, inserted)
  else .error "invalid input syntax for type numeric"

/-- `Database.getAnalysisByDate`: `SELECT * WHERE asof_date = $1`. -/
def getAnalysisByDate (st : TableState) (date : String) : Option StoredRow :=
  st.rows.find? (fun r => decide (r.data.asof_date = some (.str date)))

/-- The rows stored for a given date (the claims speak of "exactly one
stored row for D"). -/
def rowsForDate (st : TableState) (date : String) : List StoredRow :=
  st.rows.filter (fun r => decide (r.data.asof_date = some (.str date)))

/-- Outcome of the /analyze handler: HTTP status, table afterwards, and
the saved record if any. -/
structure AnalyzeOutcome where
  httpStatus : ℕ
  table : TableState
  saved : Option StoredRow
deriving Repr, DecidableEq

/-- The /analyze handler: 404 when no chart exists for the date; 500
when the analysis call fails; otherwise attach `original_chart_url`,
try annotation — on success set `annotated_chart_url` to the annotated
path, on failure catch the error and set it to null — then upsert.  A
save failure is caught by the handler's outer catch and answered with
500, nothing stored; a successful save is answered with 200.
`chartExists` and the two request outcomes stand for the file check
and the two remote calls. -/
def analyzeHandler (chartExists : Bool) (analysisResult : Except String JValue)
    (annotateOk : Bool) (dataDir date : String) (st : TableState) (now : ℕ) :
    AnalyzeOutcome :=
  let chartPath := dataDir ++ "/" ++ date ++ "/original_chart.png"
  let annotatedPath := dataDir ++ "/" ++ date ++ "/annotated_chart.png"
  if !chartExists then ⟨404, st, none⟩
  else
    match analysisResult with
    | .error _ => ⟨500, st, none⟩
    | .ok analysis0 =>
        let analysis1 := jset analysis0 "original_chart_url" (.str chartPath)
        let analysis2 :=
          if annotateOk then jset analysis1 "annotated_chart_url" (.str annotatedPath)
          else jset analysis1 "annotated_chart_url" .null
        match saveAnalysis st now analysis2 with
        | .ok save => ⟨200, save.1, some save.2⟩
        | .error _ => ⟨500, st, none⟩

/-- The process-local background-job status object. -/
structure DownloadStatus where
  isRunning : Bool
  lastStartTime : Option ℕ
  lastEndTime : Option ℕ
  lastSuccess : Option Bool
  lastError : Option String
  lastFilePath : Option String
deriving Repr, DecidableEq

/-- Initial value at process start. -/
def initialDownloadStatus : DownloadStatus := ⟨false, none, none, none, none, none⟩

/-- Outcome of the POST /download handler: HTTP status, the job-status
object afterwards, and whether a background job was started. -/
structure DownloadOutcome where
  httpStatus : ℕ
  status : DownloadStatus
  jobStarted : Bool
deriving Repr, DecidableEq

/-- The POST /download handler: reject with 409 while `isRunning`,
leaving the status untouched and starting nothing; otherwise start the
background download (whose synchronous prefix sets `isRunning`,
`lastStartTime` and clears `lastError` before the first await) and
respond 202 immediately. -/
def downloadHandler (st : DownloadStatus) (now : ℕ) : DownloadOutcome :=
  if st.isRunning then ⟨409, st, false⟩
  else
    ⟨202,
      { st with isRunning := true, lastStartTime := some now, lastError := none },
      true⟩

/-- Completion of the background download job
(`runDownloadInBackground`'s success and catch paths). -/
def downloadComplete (st : DownloadStatus) (endTime : ℕ)
    (result : Except String String) : DownloadStatus :=
  match result with
  | .ok fp =>
      { st with isRunning := false, lastEndTime := some endTime,
                lastSuccess := some true, lastFilePath := some fp }
  | .error e =>
      { st with isRunning := false, lastEndTime := some endTime,
                lastSuccess := some false, lastError := some e }

/-- OpenAI assistant run statuses observed by the poll loop. -/
inductive RunStatus where
  | queued
  | inProgress
  | requiresAction
  | completed
  | failed
  | cancelled
  | expired
deriving Repr, DecidableEq

/-- The four distinct errors the poll loop can raise, and success. -/
inductive PollOutcome where
  | ok
  | timeoutErr
  | failedErr
  | cancelledErr
  | expiredErr
deriving Repr, DecidableEq

/-- `POLL_INTERVAL = 2000` ms. -/
def POLL_INTERVAL : ℕ := 2000

/-- `MAX_POLL_TIME = 300000` ms (5 minutes). -/
def MAX_POLL_TIME : ℕ := 300000

/-- The `OpenAIAssistant.analyze` poll loop (step 5 of the protocol):
while the run is not `completed`, first raise a timeout error once the
elapsed time exceeds `MAX_POLL_TIME`, then raise a distinct error if
the run is `failed`, `cancelled` or `expired`; otherwise sleep
`POLL_INTERVAL` and re-fetch the status.  `retrieve k` is the status
returned by the (k+1)-th re-fetch; `elapsed` advances by exactly
`POLL_INTERVAL` per iteration (the fixed 2-second sleep). -/
def pollLoop (retrieve : ℕ → RunStatus) (k : ℕ) (cur : RunStatus)
    (elapsed : ℕ) : PollOutcome :=
  if cur = .completed then .ok
  else if _h : elapsed > MAX_POLL_TIME then .timeoutErr
  else if cur = .failed then .failedErr
  else if cur = .cancelled then .cancelledErr
  else if cur = .expired then .expiredErr
  else pollLoop retrieve (k + 1) (retrieve k) (elapsed + POLL_INTERVAL)
termination_by MAX_POLL_TIME + 1 - elapsed
decreasing_by simp only [MAX_POLL_TIME, POLL_INTERVAL] at *; omega

/-- Entry point of the poll: the run starts with its creation status and
zero elapsed time. -/
def analyzePoll (retrieve : ℕ → RunStatus) (initial : RunStatus) : PollOutcome :=
  pollLoop retrieve 0 initial 0

/-- The wrapped message thrown after exhausting all retry attempts. -/
def retryFailMsg (maxRetries : ℕ) (lastMsg : String) : String :=
  "Failed to download chart after " ++ toString maxRetries ++ " attempts: " ++ lastMsg

/-- Loop body of `downloadChartWithRetry` /
`downloadChartWithLoginAndRetry`, starting at `attempt`:
try the capture; on success return its result; on failure, when more
attempts remain wait `attempt * 5000` ms and retry, else throw the
wrapped last error.  The second component records the backoff waits, in
order.  (Entering with `attempt > maxRetries` — only possible for
`maxRetries = 0` — is the JS path that reads `.message` of an undefined
`lastError`, i.e. a TypeError.) -/
def retryLoop (download : ℕ → Except String String) (maxRetries : ℕ)
    (attempt : ℕ) (waits : List ℕ) : Except String String × List ℕ :=
  if _h : attempt ≤ maxRetries then
    match download attempt with
    | .ok v => (.ok v, waits.reverse)
    | .error e =>
        if attempt < maxRetries then
          retryLoop download maxRetries (attempt + 1) (attempt * 5000 :: waits)
        else (.error (retryFailMsg maxRetries e), waits.reverse)
  else (.error "TypeError: Cannot read properties of undefined", waits.reverse)
termination_by maxRetries + 1 - attempt

/-- `downloadChartWithRetry(date, maxRetries = 3)`: run the full capture
up to `maxRetries` times.  `download attempt` is the outcome of the
capture on that attempt. -/
def downloadChartWithRetry (download : ℕ → Except String String)
    (maxRetries : ℕ) : Except String String × List ℕ :=
  retryLoop download maxRetries 1 []

/-- `isDateFormat`: the string matches `YYYY-MM-DD` (exactly ten
characters: four digits, a dash, two digits, a dash, two digits). -/
def isDateFormat (s : String) : Bool :=
  match s.data with
  | [y1, y2, y3, y4, h1, m1, m2, h2, d1, d2] =>
      y1.isDigit && y2.isDigit && y3.isDigit && y4.isDigit &&
      h1 == '-' && m1.isDigit && m2.isDigit &&
      h2 == '-' && d1.isDigit && d2.isDigit
  | _ => false

/-- One entry of the data directory, as `fs.readdir` with
`withFileTypes` reports it. -/
structure DirEntry where
  name : String
  isDirectory : Bool
deriving Repr, DecidableEq

/-- The default JS `.sort()` comparator on strings: lexicographic
comparison of the character sequences by code point. -/
def charListLe : List Char → List Char → Bool
  | [], _ => true
  | _ :: _, [] => false
  | a :: as, b :: bs =>
      if a < b then true
      else if b < a then false
      else charListLe as bs

/-- String comparison as JS `.sort()` orders strings. -/
def strLeJS (a b : String) : Bool :=
  charListLe a.data b.data

instance : DecidableRel (fun a b : String => strLeJS a b = true) :=
  fun a b => inferInstanceAs (Decidable (strLeJS a b = true))

/-- `listDateDirs`: a missing data directory (readdir ENOENT) yields
`[]`; otherwise keep the entries that are directories whose names match
`YYYY-MM-DD`, sort ascending (JS `.sort()` on strings) and reverse, so
the result is sorted descending.  `none` models the absent directory. -/
def listDateDirs (dirEntries : Option (List DirEntry)) : List String :=
  match dirEntries with
  | none => []
  | some entries =>
      (List.insertionSort (fun a b => strLeJS a b = true)
        ((entries.filter (fun e => e.isDirectory && isDateFormat e.name)).map
          (fun e => e.name))).reverse

/-- `getLatestDateDir`: head of the descending listing, or null. -/
def getLatestDateDir (dirEntries : Option (List DirEntry)) : Option String :=
  (listDateDirs dirEntries).head?

theorem setKey_of_not_mem (acc : List (String × JValue)) (k : String) (v : JValue)
    (h : k ∉ acc.map Prod.fst) : setKey acc k v = acc ++ [(k, v)] := by
  induction acc with
  | nil => rfl
  | cons hd tl ih =>
      simp only [List.map_cons, List.mem_cons, not_or] at h
      have hne : hd.1 ≠ k := fun he => h.1 he.symm
      cases hd with
      | mk k' v' =>
          simp only [setKey, if_neg hne, List.cons_append]
          rw [ih h.2]

theorem foldl_setKey_fresh :
    ∀ (fields acc : List (String × JValue)),
      (∀ kv ∈ fields, normKey kv.1 ∉ acc.map Prod.fst) →
      ((fields.map fun kv => normKey kv.1).Pairwise (· ≠ ·)) →
      fields.foldl (fun a kv => setKey a (normKey kv.fst) kv.snd) acc
        = acc ++ fields.map (fun kv => (normKey kv.1, kv.2))
  | [], acc, _, _ => by simp
  | (k, v) :: rest, acc, hfresh, hpair => by
      simp only [List.map_cons, List.pairwise_cons] at hpair
      have hk : normKey k ∉ acc.map Prod.fst := hfresh (k, v) (by simp)
      have hfresh' : ∀ kv ∈ rest,
          normKey kv.1 ∉ (acc ++ [(normKey k, v)]).map Prod.fst := by
        intro kv hkv hmem
        rcases (by simpa using hmem :
            normKey kv.1 ∈ acc.map Prod.fst ∨ normKey kv.1 = normKey k) with hm | he
        · exact hfresh kv (List.mem_cons_of_mem _ hkv) hm
        · exact hpair.1 (normKey kv.1) (List.mem_map_of_mem _ hkv) he.symm
      calc ((k, v) :: rest).foldl (fun a kv => setKey a (normKey kv.fst) kv.snd) acc
          = rest.foldl (fun a kv => setKey a (normKey kv.fst) kv.snd)
              (setKey acc (normKey k) v) := by simp [List.foldl_cons]
        _ = rest.foldl (fun a kv => setKey a (normKey kv.fst) kv.snd)
              (acc ++ [(normKey k, v)]) := by rw [setKey_of_not_mem acc _ v hk]
        _ = (acc ++ [(normKey k, v)]) ++ rest.map (fun kv => (normKey kv.1, kv.2)) :=
              foldl_setKey_fresh rest _ hfresh' hpair.2
        _ = acc ++ ((k, v) :: rest).map (fun kv => (normKey kv.1, kv.2)) := by simp

theorem normalizeKeys_of_pairwise (fields : List (String × JValue))
    (hinj : (fields.map fun kv => normKey kv.1).Pairwise (· ≠ ·)) :
    normalizeKeys fields = fields.map (fun kv => (normKey kv.1, kv.2)) := by
  simpa using foldl_setKey_fresh fields [] (by simp) hinj

/-- C3: a 3-layer payload whose top-level keys are case/space/underscore
variants of the layer names normalizes to the identical internal
structure `[("layer1", v1), ("layer2", v2), ("layer3", v3)]`; in
general, every top-level key is mapped by deleting spaces and
underscores and lower-casing, with the associated value unchanged. -/
theorem normalizeKeys_variant_payloads (k1 k2 k3 : String) (v1 v2 v3 : JValue)
    (h1 : normKey k1 = "layer1") (h2 : normKey k2 = "layer2")
    (h3 : normKey k3 = "layer3") :
    normalizeKeys [(k1, v1), (k2, v2), (k3, v3)] =
      [("layer1", v1), ("layer2", v2), ("layer3", v3)] ∧
    ∀ fields : List (String × JValue),
      ((fields.map fun kv => normKey kv.1).Pairwise (· ≠ ·)) →
      normalizeKeys fields = fields.map fun kv => (normKey kv.1, kv.2) := by
  constructor
  · have hp : (([(k1, v1), (k2, v2), (k3, v3)]).map fun kv => normKey kv.1).Pairwise
        (· ≠ ·) := by
      simp only [List.map_cons, List.map_nil, h1, h2, h3]
      decide
    rw [normalizeKeys_of_pairwise _ hp]
    simp [h1, h2, h3]
  · exact normalizeKeys_of_pairwise

/-- C3 witness: the three spellings `"layer_1"`, `"Layer 2"`, `"LAYER_3"`
normalize to the canonical structure. -/
theorem normalizeKeys_variant_payloads_witness :
    normalizeKeys [("layer_1", .str "a"), ("Layer 2", .str "b"), ("LAYER_3", .str "c")] =
      [("layer1", .str "a"), ("layer2", .str "b"), ("layer3", .str "c")] ∧
    ∀ fields : List (String × JValue),
      ((fields.map fun kv => normKey kv.1).Pairwise (· ≠ ·)) →
      normalizeKeys fields = fields.map fun kv => (normKey kv.1, kv.2) :=
  normalizeKeys_variant_payloads "layer_1" "Layer 2" "LAYER_3"
    (.str "a") (.str "b") (.str "c") (by decide) (by decide) (by decide)

/-- C8: with a capture that fails twice then succeeds,
`downloadChartWithRetry(date, 3)` returns the success value, waiting
`attempt * 5s` (5s then 10s) between attempts, and the two intermediate
failures are not surfaced; and with a capture failing on all three
attempts it throws the wrapped error carrying the last failure's
message. -/
theorem downloadChartWithRetry_behavior (download : ℕ → Except String String)
    (v e1 e2 : String)
    (h1 : download 1 = .error e1) (h2 : download 2 = .error e2)
    (h3 : download 3 = .ok v) :
    downloadChartWithRetry download 3 = (.ok v, [5000, 10000]) ∧
    ∀ (f : ℕ → Except String String) (g1 g2 g3 : String),
      f 1 = .error g1 → f 2 = .error g2 → f 3 = .error g3 →
      downloadChartWithRetry f 3 =
        (.error ("Failed to download chart after 3 attempts: " ++ g3),
          [5000, 10000]) := by
  constructor
  · rw [downloadChartWithRetry, retryLoop, h1]
    norm_num
    rw [retryLoop, h2]
    norm_num
    rw [retryLoop, h3]
    simp
  · intro f g1 g2 g3 hg1 hg2 hg3
    rw [downloadChartWithRetry, retryLoop, hg1]
    norm_num
    rw [retryLoop, hg2]
    norm_num
    rw [retryLoop, hg3]
    norm_num [retryFailMsg]
    rfl

/-- C8 witness: a concrete capture failing twice then succeeding. -/
theorem downloadChartWithRetry_behavior_witness :
    downloadChartWithRetry
        (fun n => if n ≤ 2 then .error ("boom" ++ toString n) else .ok "/data/chart.png") 3 =
      (.ok "/data/chart.png", [5000, 10000]) ∧
    ∀ (f : ℕ → Except String String) (g1 g2 g3 : String),
      f 1 = .error g1 → f 2 = .error g2 → f 3 = .error g3 →
      downloadChartWithRetry f 3 =
        (.error ("Failed to download chart after 3 attempts: " ++ g3),
          [5000, 10000]) :=
  downloadChartWithRetry_behavior
    (fun n => if n ≤ 2 then .error ("boom" ++ toString n) else .ok "/data/chart.png")
    "/data/chart.png" "boom1" "boom2" rfl rfl rfl

/-- The terminal run statuses: `completed`, `failed`, `cancelled`,
`expired`. -/
def isTerminal : RunStatus → Bool
  | .completed => true
  | .failed => true
  | .cancelled => true
  | .expired => true
  | _ => false

theorem pollLoop_timeout_aux (r : ℕ → RunStatus)
    (hr : ∀ n, isTerminal (r n) = false) :
    ∀ (m e k : ℕ) (cur : RunStatus), MAX_POLL_TIME + 1 - e ≤ m →
      isTerminal cur = false → pollLoop r k cur e = .timeoutErr := by
  intro m
  induction m with
  | zero =>
      intro e k cur hm hcur
      have he : e > MAX_POLL_TIME := by omega
      have hcc : cur ≠ .completed := by
        intro hx; rw [hx] at hcur; simp [isTerminal] at hcur
      rw [pollLoop]
      simp [hcc, he]
  | succ m ih =>
      intro e k cur hm hcur
      have hcc : cur ≠ .completed := by
        intro hx; rw [hx] at hcur; simp [isTerminal] at hcur
      have hf : cur ≠ .failed := by
        intro hx; rw [hx] at hcur; simp [isTerminal] at hcur
      have hc : cur ≠ .cancelled := by
        intro hx; rw [hx] at hcur; simp [isTerminal] at hcur
      have hx : cur ≠ .expired := by
        intro hx; rw [hx] at hcur; simp [isTerminal] at hcur
      rw [pollLoop]
      by_cases he : e > MAX_POLL_TIME
      · simp [hcc, he]
      · simp only [if_neg hcc, dif_neg he, if_neg hf, if_neg hc, if_neg hx]
        exact ih (e + POLL_INTERVAL) (k + 1) (r k)
          (by simp only [POLL_INTERVAL] at *; omega) (hr k)

theorem pollLoop_ok_aux (r : ℕ → RunStatus) :
    ∀ (m e k : ℕ) (cur : RunStatus), MAX_POLL_TIME + 1 - e ≤ m →
      pollLoop r k cur e = .ok → cur = .completed ∨ ∃ n, r n = .completed := by
  intro m
  induction m with
  | zero =>
      intro e k cur hm hok
      by_cases hcc : cur = .completed
      · exact Or.inl hcc
      · have he : e > MAX_POLL_TIME := by omega
        rw [pollLoop] at hok
        simp [hcc, he] at hok
  | succ m ih =>
      intro e k cur hm hok
      by_cases hcc : cur = .completed
      · exact Or.inl hcc
      · rw [pollLoop] at hok
        by_cases he : e > MAX_POLL_TIME
        · simp [hcc, he] at hok
        · by_cases hf : cur = .failed
          · simp [hcc, he, hf] at hok
          · by_cases hc : cur = .cancelled
            · simp [hcc, he, hf, hc] at hok
            · by_cases hx : cur = .expired
              · simp [hcc, he, hf, hc, hx] at hok
              · simp only [if_neg hcc, dif_neg he, if_neg hf, if_neg hc,
                  if_neg hx] at hok
                rcases ih (e + POLL_INTERVAL) (k + 1) (r k)
                    (by simp only [POLL_INTERVAL] at *; omega) hok with h | ⟨n, hn⟩
                · exact Or.inr ⟨k, h⟩
                · exact Or.inr ⟨n, hn⟩

/-- C7: the poll loop runs on the fixed 2000 ms interval with the
300000 ms (5 minute) bound; a `completed` run returns success; within
the time bound each non-success terminal state raises its own distinct
error; a run that never reaches a terminal state raises the timeout
error; and the loop returns success only when the run status reached
`completed`. -/
theorem analyze_poll_protocol :
    POLL_INTERVAL = 2000 ∧ MAX_POLL_TIME = 300000 ∧
    (∀ r k e, pollLoop r k .completed e = .ok) ∧
    (∀ r k e, e ≤ MAX_POLL_TIME →
      pollLoop r k .failed e = .failedErr ∧
      pollLoop r k .cancelled e = .cancelledErr ∧
      pollLoop r k .expired e = .expiredErr) ∧
    (∀ r cur, (∀ n, isTerminal (r n) = false) → isTerminal cur = false →
      analyzePoll r cur = .timeoutErr) ∧
    (∀ r k cur e, pollLoop r k cur e = .ok →
      cur = .completed ∨ ∃ n, r n = .completed) := by
  refine ⟨rfl, rfl, ?_, ?_, ?_, ?_⟩
  · intro r k e
    rw [pollLoop]
    simp
  · intro r k e he
    have hnt := Nat.not_lt.mpr he
    refine ⟨?_, ?_, ?_⟩ <;> (rw [pollLoop]; simp [hnt])
  · intro r cur hr hcur
    exact pollLoop_timeout_aux r hr (MAX_POLL_TIME + 1) 0 0 cur (by omega) hcur
  · intro r k cur e hok
    exact pollLoop_ok_aux r (MAX_POLL_TIME + 1 - e) e k cur (by omega) hok

/-- C7 witness: concrete runs exercising each hypothesis — a failed run
inside the bound, a never-terminal run timing out, and an
already-completed run. -/
theorem analyze_poll_protocol_witness :
    pollLoop (fun _ => .inProgress) 0 .failed 0 = .failedErr ∧
    analyzePoll (fun _ => .inProgress) .queued = .timeoutErr ∧
    pollLoop (fun _ => .inProgress) 0 .completed 0 = .ok :=
  ⟨(analyze_poll_protocol.2.2.2.1 (fun _ => .inProgress) 0 0 (by norm_num [MAX_POLL_TIME])).1,
   analyze_poll_protocol.2.2.2.2.1 (fun _ => .inProgress) .queued (fun _ => rfl) rfl,
   analyze_poll_protocol.2.2.1 (fun _ => .inProgress) 0 0⟩

/-- C6: a POST /download received while a job is running is rejected
with 409 and starts nothing, leaving the status untouched; a trigger
received while idle responds 202 and starts exactly one background job,
so the immediately following trigger is rejected — job status reflects
exactly one in-flight run. -/
theorem download_single_flight (st : DownloadStatus) (now1 now2 : ℕ)
    (h : st.isRunning = false) :
    (downloadHandler st now1).httpStatus = 202 ∧
    (downloadHandler st now1).jobStarted = true ∧
    (downloadHandler st now1).status.isRunning = true ∧
    downloadHandler (downloadHandler st now1).status now2 =
      ⟨409, (downloadHandler st now1).status, false⟩ ∧
    ∀ (st' : DownloadStatus) (now' : ℕ), st'.isRunning = true →
      downloadHandler st' now' = ⟨409, st', false⟩ := by
  refine ⟨?_, ?_, ?_, ?_, ?_⟩
  · simp [downloadHandler, h]
  · simp [downloadHandler, h]
  · simp [downloadHandler, h]
  · simp [downloadHandler, h]
  · intro st' now' h'
    simp [downloadHandler, h']

/-- C6 witness: two back-to-back triggers from the initial status. -/
theorem download_single_flight_witness :
    (downloadHandler initialDownloadStatus 5).httpStatus = 202 ∧
    (downloadHandler initialDownloadStatus 5).jobStarted = true ∧
    (downloadHandler initialDownloadStatus 5).status.isRunning = true ∧
    downloadHandler (downloadHandler initialDownloadStatus 5).status 6 =
      ⟨409, (downloadHandler initialDownloadStatus 5).status, false⟩ ∧
    ∀ (st' : DownloadStatus) (now' : ℕ), st'.isRunning = true →
      downloadHandler st' now' = ⟨409, st', false⟩ :=
  download_single_flight initialDownloadStatus 5 6 rfl

theorem charListLe_iff_not_lex :
    ∀ xs ys : List Char, charListLe xs ys = true ↔ ¬ List.Lex (· < ·) ys xs
  | [], ys => by
      simp [charListLe, List.Lex.not_nil_right]
  | x :: xs, [] => by
      simp only [charListLe, Bool.false_eq_true, false_iff, not_not]
      exact List.Lex.nil
  | x :: xs, y :: ys => by
      rcases lt_trichotomy x y with hxy | hxy | hxy
      · apply iff_of_true
        · simp [charListLe, hxy]
        · intro hlex
          cases hlex with
          | cons _ => exact lt_irrefl x hxy
          | rel h => exact lt_asymm hxy h
      · subst hxy
        have := charListLe_iff_not_lex xs ys
        simp only [charListLe, lt_irrefl, if_false]
        rw [this, List.Lex.cons_iff]
      · apply iff_of_false
        · simp [charListLe, lt_asymm hxy, hxy]
        · exact fun hn => hn (List.Lex.rel hxy)

theorem strLeJS_iff_le (a b : String) : strLeJS a b = true ↔ a ≤ b := by
  rw [String.le_iff_toList_le, ← not_lt]
  have hlt : (b.toList < a.toList) = List.Lex (· < ·) b.data a.data := rfl
  rw [hlt]
  exact charListLe_iff_not_lex a.data b.data

instance : IsTotal String (fun a b => strLeJS a b = true) :=
  ⟨fun a b => by
    rw [strLeJS_iff_le, strLeJS_iff_le]
    exact le_total a b⟩

instance : IsTrans String (fun a b => strLeJS a b = true) :=
  ⟨fun a b c hab hbc => by
    rw [strLeJS_iff_le] at *
    exact le_trans hab hbc⟩

/-- C10: a missing data directory makes `listDateDirs` return the empty
list (so `getLatestDateDir` returns null); with an existing directory
the listing contains exactly the entries that are directories with
`YYYY-MM-DD` names, sorted in descending order. -/
theorem listDateDirs_behavior :
    listDateDirs none = [] ∧ getLatestDateDir none = none ∧
    ∀ entries : List DirEntry,
      (∀ s ∈ listDateDirs (some entries),
        ∃ e ∈ entries, e.isDirectory = true ∧ isDateFormat e.name = true ∧ e.name = s) ∧
      (∀ e ∈ entries, e.isDirectory = true → isDateFormat e.name = true →
        e.name ∈ listDateDirs (some entries)) ∧
      (listDateDirs (some entries)).Sorted (· ≥ ·) := by
  refine ⟨rfl, rfl, ?_⟩
  intro entries
  refine ⟨?_, ?_, ?_⟩
  · intro s hs
    simp only [listDateDirs, List.mem_reverse, List.mem_insertionSort, List.mem_map,
      List.mem_filter, Bool.and_eq_true] at hs
    rcases hs with ⟨e, ⟨he, hdir, hfmt⟩, rfl⟩
    exact ⟨e, he, hdir, hfmt, rfl⟩
  · intro e he hdir hfmt
    simp only [listDateDirs, List.mem_reverse, List.mem_insertionSort, List.mem_map]
    exact ⟨e, List.mem_filter.mpr ⟨he, by simp [hdir, hfmt]⟩, rfl⟩
  · simp only [listDateDirs]
    rw [List.Sorted, List.pairwise_reverse]
    exact (List.sorted_insertionSort (fun a b => strLeJS a b = true) _).imp
      (fun hab => (strLeJS_iff_le _ _).mp hab)

/-- A concrete data directory for the C10 witness: two date directories,
a non-date directory, and a date-named plain file. -/
def exEntries : List DirEntry :=
  [⟨"2024-12-31", true⟩, ⟨"notes", true⟩, ⟨"2025-01-03", false⟩, ⟨"2025-01-02", true⟩]

/-- C10 witness: concrete listing — ENOENT gives `[]`, a listed name
comes from a date directory, a date directory is listed, and the
listing is descending. -/
theorem listDateDirs_behavior_witness :
    listDateDirs none = [] ∧
    (∃ e ∈ exEntries, e.isDirectory = true ∧ isDateFormat e.name = true ∧
      e.name = "2025-01-02") ∧
    "2024-12-31" ∈ listDateDirs (some exEntries) ∧
    (listDateDirs (some exEntries)).Sorted (· ≥ ·) :=
  ⟨listDateDirs_behavior.1,
   (listDateDirs_behavior.2.2 exEntries).1 "2025-01-02" (by decide),
   (listDateDirs_behavior.2.2 exEntries).2.1 ⟨"2024-12-31", true⟩ (by decide) rfl (by decide),
   (listDateDirs_behavior.2.2 exEntries).2.2⟩

/-- The 9 `scenarioN_*` columns of a row, for scenario index `i`
(0-based; the source maps indices 0..3 to column groups 1..4). -/
def scenarioGroup (r : RowData) : ℕ → List (Option JValue)
  | 0 => [r.scenario1_id, r.scenario1_name, r.scenario1_probability,
      r.scenario1_path_summary, r.scenario1_technical_logic, r.scenario1_target_zone,
      r.scenario1_expected_move_min, r.scenario1_expected_move_max, r.scenario1_risk_profile]
  | 1 => [r.scenario2_id, r.scenario2_name, r.scenario2_probability,
      r.scenario2_path_summary, r.scenario2_technical_logic, r.scenario2_target_zone,
      r.scenario2_expected_move_min, r.scenario2_expected_move_max, r.scenario2_risk_profile]
  | 2 => [r.scenario3_id, r.scenario3_name, r.scenario3_probability,
      r.scenario3_path_summary, r.scenario3_technical_logic, r.scenario3_target_zone,
      r.scenario3_expected_move_min, r.scenario3_expected_move_max, r.scenario3_risk_profile]
  | 3 => [r.scenario4_id, r.scenario4_name, r.scenario4_probability,
      r.scenario4_path_summary, r.scenario4_technical_logic, r.scenario4_target_zone,
      r.scenario4_expected_move_min, r.scenario4_expected_move_max, r.scenario4_risk_profile]
  | _ => []

theorem getScenario_missing (xs : List JValue) (i : ℕ) (f : String) (sub : Option ℕ)
    (h : xs.length ≤ i) : getScenario xs i f sub = some JValue.null := by
  have hnone : xs[i]? = none := List.getElem?_eq_none h
  simp [getScenario, hnone, jFalsy]

theorem getScenario_take (xs : List JValue) (j : ℕ) (f : String) (sub : Option ℕ)
    (hj : j < 4) : getScenario xs j f sub = getScenario (xs.take 4) j f sub := by
  simp [getScenario, List.getElem?_take_of_lt hj]

/-- C4: a scenarios sequence with fewer than 4 elements maps without
error (the Lean mapping is total, as the source's `getScenario` guards
every access) and every `scenarioN_*` column of a missing index is
null; and the scenario columns depend on the sequence only through its
first 4 elements, so a payload whose sequence is longer than 4 maps
its scenario column groups exactly as any payload carrying the same
first 4 scenarios — the excess elements are ignored. -/
theorem mapAnalysisToRow_pads_missing_scenarios (a : JValue) :
    (∀ i : ℕ, i < 4 → (scenariosOf a).length ≤ i →
      scenarioGroup (mapAnalysisToRow a) i = List.replicate 9 (some JValue.null)) ∧
    (∀ b : JValue, (scenariosOf b).take 4 = (scenariosOf a).take 4 →
      ∀ i : ℕ, i < 4 →
        scenarioGroup (mapAnalysisToRow b) i = scenarioGroup (mapAnalysisToRow a) i) := by
  constructor
  · intro i hi hmiss
    interval_cases i <;>
      simp [scenarioGroup, mapAnalysisToRow, getScenario_missing _ _ _ _ hmiss,
        List.replicate]
  · intro b hb i hi
    have hcongr : ∀ (f : String) (sub : Option ℕ),
        getScenario (scenariosOf b) i f sub = getScenario (scenariosOf a) i f sub := by
      intro f sub
      rw [getScenario_take (scenariosOf b) i f sub hi,
        getScenario_take (scenariosOf a) i f sub hi, hb]
    interval_cases i <;> simp [scenarioGroup, mapAnalysisToRow, hcongr]

/-- A concrete scenario object as the assistant returns them. -/
def mkScenario (sid nm : String) (p : ℚ) (mn mx : ℚ) : JValue :=
  .obj [("scenario_id", .str sid), ("name", .str nm), ("probability", .num p),
        ("path_summary", .str "path"), ("technical_logic", .str "logic"),
        ("target_zone_description", .str "zone"),
        ("expected_move_percent", .arr [.num mn, .num mx]),
        ("risk_profile", .str "risk")]

/-- A concrete 3-layer analysis payload with the given date and
scenarios sequence. -/
def mkAnalysis (date : String) (scns : List JValue) : JValue :=
  .obj [("layer1", .obj [("asof_date", .str date), ("secular_trend", .str "Up")]),
        ("layer2", .obj [("scenario_analysis", .obj
            [("dominant_dynamics", .str "dyn"), ("overall_bias", .str "bias"),
             ("secular_summary", .str "sum"), ("scenarios", .arr scns)])]),
        ("layer3", .obj [("scenario_summary",
            .arr [.str "s1", .str "s2", .str "s3", .str "s4"]),
          ("primary_message", .str "msg")])]

/-- A scenario object without the `expected_move_percent` range: its
row binds cleanly even through the subfield-0 slip (both expected-move
columns are SQL NULL). -/
def mkScenarioNoMove (sid nm : String) (p : ℚ) : JValue :=
  .obj [("scenario_id", .str sid), ("name", .str nm), ("probability", .num p),
        ("path_summary", .str "path"), ("technical_logic", .str "logic"),
        ("target_zone_description", .str "zone"),
        ("risk_profile", .str "risk")]

/-- A payload whose scenarios sequence carries exactly 4 elements. -/
def exLong4 : JValue := mkAnalysis "2025-12-02"
  [mkScenario "1" "A" (4/10) 1 2, mkScenario "2" "B" (3/10) 2 3,
   mkScenario "3" "C" (2/10) 3 4, mkScenario "4" "D" (1/10) 4 5]

/-- The same payload extended with two extra scenarios (6 in total). -/
def exLong6 : JValue := mkAnalysis "2025-12-02"
  [mkScenario "1" "A" (4/10) 1 2, mkScenario "2" "B" (3/10) 2 3,
   mkScenario "3" "C" (2/10) 3 4, mkScenario "4" "D" (1/10) 4 5,
   mkScenario "5" "E" (1/10) 5 6, mkScenario "6" "F" (1/10) 6 7]

/-- C4 witness: a payload carrying only 2 scenarios maps scenario group
3 (index 2) to nine nulls, and the 6-scenario payload maps scenario
group 4 exactly as its 4-scenario truncation. -/
theorem mapAnalysisToRow_pads_missing_scenarios_witness :
    scenarioGroup (mapAnalysisToRow (mkAnalysis "2025-12-01"
        [mkScenario "1" "A" (6/10) (-1) 2, mkScenario "2" "B" (4/10) 1 3])) 2 =
      List.replicate 9 (some JValue.null) ∧
    scenarioGroup (mapAnalysisToRow exLong6) 3 =
      scenarioGroup (mapAnalysisToRow exLong4) 3 :=
  ⟨(mapAnalysisToRow_pads_missing_scenarios (mkAnalysis "2025-12-01"
      [mkScenario "1" "A" (6/10) (-1) 2, mkScenario "2" "B" (4/10) 1 3])).1
      2 (by norm_num) (by decide),
   (mapAnalysisToRow_pads_missing_scenarios exLong4).2 exLong6 rfl 3 (by norm_num)⟩

theorem lookupField_setKey_same (fields : List (String × JValue)) (k : String)
    (v : JValue) : lookupField (setKey fields k v) k = some v := by
  induction fields with
  | nil => simp [setKey, lookupField]
  | cons hd tl ih =>
      cases hd with
      | mk k' v' =>
          by_cases h : k' = k
          · simp [setKey, h, lookupField]
          · simp [setKey, h, lookupField, ih]

theorem mapRow_annot_null (v : JValue) :
    (applyColumnTypes (mapAnalysisToRow
      (jset v "annotated_chart_url" JValue.null))).annotated_chart_url = none := by
  cases v with
  | obj fields =>
      have hlk := lookupField_setKey_same fields "annotated_chart_url" JValue.null
      simp [mapAnalysisToRow, applyColumnTypes, jset, jget, hlk, jFalsy, sqlCast]
  | null => simp [mapAnalysisToRow, applyColumnTypes, jset, jget, jFalsy, sqlCast]
  | bool b => simp [mapAnalysisToRow, applyColumnTypes, jset, jget, jFalsy, sqlCast]
  | num q => simp [mapAnalysisToRow, applyColumnTypes, jset, jget, jFalsy, sqlCast]
  | str s => simp [mapAnalysisToRow, applyColumnTypes, jset, jget, jFalsy, sqlCast]
  | arr xs => simp [mapAnalysisToRow, applyColumnTypes, jset, jget, jFalsy, sqlCast]

theorem saveAnalysis_ok_of_bindable (st : TableState) (now : ℕ) (a : JValue)
    (h : rowBindable (mapAnalysisToRow a) = true) :
    ∃ p, saveAnalysis st now a = .ok p := by
  cases hfind : st.rows.find? (fun r =>
      decide (r.data.asof_date = (applyColumnTypes (mapAnalysisToRow a)).asof_date)) with
  | some r0 =>
      exact ⟨_, by simp only [saveAnalysis, hfind]; rw [if_pos h]⟩
  | none =>
      exact ⟨_, by simp only [saveAnalysis, hfind]; rw [if_pos h]⟩

theorem saveAnalysis_annotated (st : TableState) (now : ℕ) (a : JValue)
    (p : TableState × StoredRow) (h : saveAnalysis st now a = .ok p) :
    p.2.data.annotated_chart_url =
      (applyColumnTypes (mapAnalysisToRow a)).annotated_chart_url := by
  simp only [saveAnalysis] at h
  by_cases hb : rowBindable (mapAnalysisToRow a) = true
  · rw [if_pos hb] at h
    cases hfind : st.rows.find? (fun r =>
        decide (r.data.asof_date = (applyColumnTypes (mapAnalysisToRow a)).asof_date)) with
    | some r0 =>
        rw [hfind] at h
        injection h with h'
        subst h'
        rfl
    | none =>
        rw [hfind] at h
        injection h with h'
        subst h'
        rfl
  · rw [if_neg hb] at h
    cases h

theorem find?_asof_some (rows : List StoredRow) (key : Option JValue) (r : StoredRow)
    (h : rows.find? (fun x => decide (x.data.asof_date = key)) = some r) :
    r ∈ rows ∧ r.data.asof_date = key := by
  refine ⟨List.mem_of_find?_eq_some h, ?_⟩
  have h1 := List.find?_some h
  exact of_decide_eq_true h1

theorem saveAnalysis_mem (st : TableState) (now : ℕ) (a : JValue)
    (p : TableState × StoredRow) (h : saveAnalysis st now a = .ok p) :
    p.2 ∈ p.1.rows := by
  simp only [saveAnalysis] at h
  by_cases hb : rowBindable (mapAnalysisToRow a) = true
  · rw [if_pos hb] at h
    cases hfind : st.rows.find? (fun r =>
        decide (r.data.asof_date = (applyColumnTypes (mapAnalysisToRow a)).asof_date)) with
    | some r0 =>
        rw [hfind] at h
        obtain ⟨hmem, heq⟩ := find?_asof_some st.rows _ r0 hfind
        injection h with h'
        subst h'
        refine List.mem_map.mpr ⟨r0, hmem, ?_⟩
        simp [heq]
    | none =>
        rw [hfind] at h
        injection h with h'
        subst h'
        simp
  · rw [if_neg hb] at h
    cases h

theorem analyzeHandler_ok_save (st : TableState) (now : ℕ) (a : JValue)
    (dataDir date : String) (p : TableState × StoredRow)
    (hp : saveAnalysis st now (jset (jset a "original_chart_url"
        (.str (dataDir ++ "/" ++ date ++ "/original_chart.png")))
        "annotated_chart_url" JValue.null) = .ok p) :
    analyzeHandler true (.ok a) false dataDir date st now = ⟨200, p.1, some p.2⟩ := by
  have hstep : analyzeHandler true (.ok a) false dataDir date st now =
      (match saveAnalysis st now (jset (jset a "original_chart_url"
          (.str (dataDir ++ "/" ++ date ++ "/original_chart.png")))
          "annotated_chart_url" JValue.null) with
        | .ok save => (⟨200, save.1, some save.2⟩ : AnalyzeOutcome)
        | .error _ => ⟨500, st, none⟩) := rfl
  rw [hstep, hp]

/-- C5: when the chart exists, the analysis succeeds and the mapped
record binds cleanly into the INSERT, a failed annotation still lets
/analyze persist a record whose `annotated_chart_url` is SQL NULL and
respond 200 — the annotation failure never aborts the analyze
request. -/
theorem analyze_annot_failure_persists (st : TableState) (dataDir date : String)
    (now : ℕ) (a : JValue)
    (hbind : rowBindable (mapAnalysisToRow (jset (jset a "original_chart_url"
        (.str (dataDir ++ "/" ++ date ++ "/original_chart.png")))
        "annotated_chart_url" JValue.null)) = true) :
    (analyzeHandler true (.ok a) false dataDir date st now).httpStatus = 200 ∧
    ∃ r, (analyzeHandler true (.ok a) false dataDir date st now).saved = some r ∧
      r.data.annotated_chart_url = none ∧
      r ∈ (analyzeHandler true (.ok a) false dataDir date st now).table.rows := by
  obtain ⟨p, hp⟩ := saveAnalysis_ok_of_bindable st now _ hbind
  rw [analyzeHandler_ok_save st now a dataDir date p hp]
  exact ⟨rfl, p.2, rfl,
    (saveAnalysis_annotated st now _ p hp).trans (mapRow_annot_null _),
    saveAnalysis_mem st now _ p hp⟩

/-- C5 witness: a storable single-scenario payload whose annotation
fails. -/
theorem analyze_annot_failure_persists_witness :
    (analyzeHandler true (.ok (mkAnalysis "2025-12-01" [mkScenarioNoMove "1" "A" (6/10)]))
      false "/data" "2025-12-01" emptyTable 30).httpStatus = 200 ∧
    ∃ r, (analyzeHandler true (.ok (mkAnalysis "2025-12-01" [mkScenarioNoMove "1" "A" (6/10)]))
        false "/data" "2025-12-01" emptyTable 30).saved = some r ∧
      r.data.annotated_chart_url = none ∧
      r ∈ (analyzeHandler true (.ok (mkAnalysis "2025-12-01" [mkScenarioNoMove "1" "A" (6/10)]))
        false "/data" "2025-12-01" emptyTable 30).table.rows :=
  analyze_annot_failure_persists emptyTable "/data" "2025-12-01" 30
    (mkAnalysis "2025-12-01" [mkScenarioNoMove "1" "A" (6/10)]) (by decide)

/-- C2 amended: `annotated_chart_url`, like every other data column, is
overwritten by each successful upsert with the incoming payload's
value; a re-run of /analyze for the same date whose annotation fails
therefore stores SQL NULL in `annotated_chart_url`, replacing a
previously set value. -/
theorem annotated_url_overwritten_on_rerun (st : TableState) (dataDir date : String)
    (now : ℕ) (a : JValue)
    (hbind : rowBindable (mapAnalysisToRow (jset (jset a "original_chart_url"
        (.str (dataDir ++ "/" ++ date ++ "/original_chart.png")))
        "annotated_chart_url" JValue.null)) = true) :
    ((analyzeHandler true (.ok a) false dataDir date st now).saved.map
      (fun r => r.data.annotated_chart_url)) = some none ∧
    ∀ (st' : TableState) (now' : ℕ) (b : JValue) (p : TableState × StoredRow),
      saveAnalysis st' now' b = .ok p →
      p.2.data.annotated_chart_url =
        (applyColumnTypes (mapAnalysisToRow b)).annotated_chart_url := by
  obtain ⟨p, hp⟩ := saveAnalysis_ok_of_bindable st now _ hbind
  constructor
  · rw [analyzeHandler_ok_save st now a dataDir date p hp]
    show some (p.2.data.annotated_chart_url) = some none
    rw [(saveAnalysis_annotated st now _ p hp).trans (mapRow_annot_null _)]
  · intro st' now' b p' hp'
    exact saveAnalysis_annotated st' now' b p' hp'

/-- The storable payload used to refute C2's no-rollback invariant
(its scenario carries no expected-move range, so the INSERT binds). -/
def exC2a : JValue := mkAnalysis "2025-11-30" [mkScenarioNoMove "1" "A" (5/10)]

/-- C2 amended witness: the /analyze re-run at the storable payload. -/
theorem annotated_url_overwritten_on_rerun_witness :
    ((analyzeHandler true (.ok exC2a) false "/data" "2025-11-30" emptyTable 20).saved.map
      (fun r => r.data.annotated_chart_url)) = some none ∧
    ∀ (st' : TableState) (now' : ℕ) (b : JValue) (p : TableState × StoredRow),
      saveAnalysis st' now' b = .ok p →
      p.2.data.annotated_chart_url =
        (applyColumnTypes (mapAnalysisToRow b)).annotated_chart_url :=
  annotated_url_overwritten_on_rerun emptyTable "/data" "2025-11-30" 20 exC2a (by decide)

/-- C2 counterexample: run /analyze for 2025-11-30 with a successful
annotation on a storable payload (the stored row's
`annotated_chart_url` is the annotated path), then re-run /analyze for
the same date with a failed annotation — the stored row's
`annotated_chart_url` is rolled back to SQL NULL, contradicting the
claim that it is never nulled once set. -/
theorem annotated_url_rollback_counterexample :
    ((getAnalysisByDate (analyzeHandler true (.ok exC2a) true "/data" "2025-11-30"
        emptyTable 10).table "2025-11-30").map (fun r => r.data.annotated_chart_url)) =
      some (some (.str "/data/2025-11-30/annotated_chart.png")) ∧
    ((getAnalysisByDate (analyzeHandler true (.ok exC2a) false "/data" "2025-11-30"
        (analyzeHandler true (.ok exC2a) true "/data" "2025-11-30" emptyTable 10).table
        20).table "2025-11-30").map (fun r => r.data.annotated_chart_url)) =
      some none := by
  constructor
  · decide
  · decide

theorem find?_asof_none (rows : List StoredRow) (key : Option JValue)
    (h : ∀ r ∈ rows, r.data.asof_date ≠ key) :
    rows.find? (fun x => decide (x.data.asof_date = key)) = none := by
  rw [List.find?_eq_none]
  intro x hx
  simp [h x hx]

theorem find?_append_of_none {α : Type} (l1 l2 : List α) (p : α → Bool)
    (h : l1.find? p = none) : (l1 ++ l2).find? p = l2.find? p := by
  induction l1 with
  | nil => simp
  | cons x xs ih =>
      rw [List.cons_append]
      cases hpx : p x with
      | true => simp [List.find?_cons, hpx] at h
      | false =>
          rw [List.find?_cons, hpx] at h ⊢
          exact ih h

/-- C1: writing two different payloads for the same date `D` (into a
table holding no row for `D`), both of whose mapped rows bind cleanly
into the INSERT, succeeds twice and leaves exactly one stored row for
`D`: its data columns equal the second payload's mapped values, its
`id` and `created_at` come from the first write, and its `updated_at`
is the second write's timestamp. -/
theorem saveAnalysis_upsert_twice (st : TableState) (D : String) (now1 now2 : ℕ)
    (a1 a2 : JValue)
    (hd1 : (applyColumnTypes (mapAnalysisToRow a1)).asof_date = some (.str D))
    (hd2 : (applyColumnTypes (mapAnalysisToRow a2)).asof_date = some (.str D))
    (hfresh : ∀ r ∈ st.rows, r.data.asof_date ≠ some (.str D))
    (hb1 : rowBindable (mapAnalysisToRow a1) = true)
    (hb2 : rowBindable (mapAnalysisToRow a2) = true) :
    ∃ p1 p2 : TableState × StoredRow,
      saveAnalysis st now1 a1 = .ok p1 ∧
      saveAnalysis p1.1 now2 a2 = .ok p2 ∧
      rowsForDate p2.1 D = [p2.2] ∧
      p2.2.data = applyColumnTypes (mapAnalysisToRow a2) ∧
      p2.2.created_at = now1 ∧
      p2.2.id = p1.2.id ∧
      p2.2.updated_at = now2 := by
  have hfind1 : st.rows.find? (fun x =>
      decide (x.data.asof_date = (applyColumnTypes (mapAnalysisToRow a1)).asof_date))
        = none := by
    apply find?_asof_none
    intro r hr
    rw [hd1]
    exact hfresh r hr
  have hfind2 : (st.rows ++
        [(⟨st.nextId, applyColumnTypes (mapAnalysisToRow a1), now1, now1⟩ : StoredRow)]).find?
        (fun x =>
          decide (x.data.asof_date = (applyColumnTypes (mapAnalysisToRow a2)).asof_date))
        = some ⟨st.nextId, applyColumnTypes (mapAnalysisToRow a1), now1, now1⟩ := by
    rw [find?_append_of_none]
    · rw [List.find?_cons]
      have : decide ((applyColumnTypes (mapAnalysisToRow a1)).asof_date =
          (applyColumnTypes (mapAnalysisToRow a2)).asof_date) = true := by
        rw [hd1, hd2]
        simp
      rw [this]
    · apply find?_asof_none
      intro r hr
      rw [hd2]
      exact hfresh r hr
  refine ⟨(⟨st.rows ++ [⟨st.nextId, applyColumnTypes (mapAnalysisToRow a1), now1, now1⟩],
        st.nextId + 1⟩,
      ⟨st.nextId, applyColumnTypes (mapAnalysisToRow a1), now1, now1⟩),
    (⟨(st.rows ++
          [(⟨st.nextId, applyColumnTypes (mapAnalysisToRow a1), now1, now1⟩ : StoredRow)]).map
        (fun x =>
          if x.data.asof_date = (applyColumnTypes (mapAnalysisToRow a2)).asof_date then
            ⟨st.nextId,
              { applyColumnTypes (mapAnalysisToRow a2) with
                  asof_date := (applyColumnTypes (mapAnalysisToRow a1)).asof_date },
              now1, now2⟩
          else x),
        st.nextId + 1⟩,
      ⟨st.nextId,
        { applyColumnTypes (mapAnalysisToRow a2) with
            asof_date := (applyColumnTypes (mapAnalysisToRow a1)).asof_date },
        now1, now2⟩),
    ?_, ?_, ?_, ?_, rfl, rfl, rfl⟩
  · simp only [saveAnalysis, hb1, if_pos, hfind1]
  · simp only [saveAnalysis, hb2, if_pos, hfind2]
  · show rowsForDate _ D = _
    have hmap : (st.rows ++
          [(⟨st.nextId, applyColumnTypes (mapAnalysisToRow a1), now1, now1⟩ : StoredRow)]).map
          (fun x =>
            if x.data.asof_date = (applyColumnTypes (mapAnalysisToRow a2)).asof_date then
              ⟨st.nextId,
                { applyColumnTypes (mapAnalysisToRow a2) with
                    asof_date := (applyColumnTypes (mapAnalysisToRow a1)).asof_date },
                now1, now2⟩
            else x)
        = st.rows ++
          [⟨st.nextId,
            { applyColumnTypes (mapAnalysisToRow a2) with
                asof_date := (applyColumnTypes (mapAnalysisToRow a1)).asof_date },
            now1, now2⟩] := by
      rw [List.map_append]
      congr 1
      · conv_rhs => rw [← List.map_id st.rows]
        apply List.map_congr_left
        intro x hx
        have : x.data.asof_date ≠ (applyColumnTypes (mapAnalysisToRow a2)).asof_date := by
          rw [hd2]
          exact hfresh x hx
        simp [this]
      · have : (applyColumnTypes (mapAnalysisToRow a1)).asof_date =
            (applyColumnTypes (mapAnalysisToRow a2)).asof_date := by rw [hd1, hd2]
        simp [this]
    rw [hmap]
    show List.filter _ _ = _
    rw [List.filter_append]
    have h1 : st.rows.filter (fun r => decide (r.data.asof_date = some (.str D))) = [] := by
      rw [List.filter_eq_nil_iff]
      intro x hx
      simp [hfresh x hx]
    rw [h1]
    simp [List.filter, hd1]
  · show ({ applyColumnTypes (mapAnalysisToRow a2) with
        asof_date := (applyColumnTypes (mapAnalysisToRow a1)).asof_date } : RowData) =
      applyColumnTypes (mapAnalysisToRow a2)
    rw [hd1, ← hd2]

/-- First payload for the C1 witness (storable: no expected-move range). -/
def exC1a : JValue := mkAnalysis "2025-11-30" [mkScenarioNoMove "1" "A" (6/10)]

/-- Second, different storable payload for the same date. -/
def exC1b : JValue := mkAnalysis "2025-11-30" [mkScenarioNoMove "1" "B" (7/10)]

/-- C1 witness: two concrete different payloads for 2025-11-30 upserted
into an empty table. -/
theorem saveAnalysis_upsert_twice_witness :
    ∃ p1 p2 : TableState × StoredRow,
      saveAnalysis emptyTable 10 exC1a = .ok p1 ∧
      saveAnalysis p1.1 20 exC1b = .ok p2 ∧
      rowsForDate p2.1 "2025-11-30" = [p2.2] ∧
      p2.2.data = applyColumnTypes (mapAnalysisToRow exC1b) ∧
      p2.2.created_at = 10 ∧
      p2.2.id = p1.2.id ∧
      p2.2.updated_at = 20 :=
  saveAnalysis_upsert_twice emptyTable "2025-11-30" 10 20 exC1a exC1b
    (by decide) (by decide) (by simp [emptyTable]) (by decide) (by decide)

/-- The four-scenario payload of the spec's concrete C9 example, with a
downside scenario whose expected-move range is `[-10, -18]`. -/
def exC9 : JValue := mkAnalysis "2025-11-30"
  [mkScenario "1" "Bear" (5/10) (-10) (-18),
   mkScenario "2" "Base" (3/10) (-5) 5,
   mkScenario "3" "Bull" (12/100) 5 15,
   mkScenario "4" "Tail" (8/100) (-25) (-35)]

/-- The spec's probabilities in a storable variant (no expected-move
ranges), used to check the 4-decimal read-back. -/
def exC9s : JValue := mkAnalysis "2025-11-30"
  [mkScenarioNoMove "1" "Bear" (5/10), mkScenarioNoMove "2" "Base" (3/10),
   mkScenarioNoMove "3" "Bull" (12/100), mkScenarioNoMove "4" "Tail" (8/100)]

/-- C9, evaluated at the failing input: because `getScenario` tests
`if (subfield)` and the numeric index `0` is falsy in JS, the min
column receives the whole 2-element `expected_move_percent` array
instead of element 0 (contradicting FIELD_MAPPING.md's
`expected_move_percent[0]`), and the INSERT for such a payload aborts
— nothing is stored.  Element 1 does reach the max column, and for a
payload that does bind, stored probabilities read back exactly at
4-decimal precision (0.50 = 0.5000, 0.08 = 0.0800). -/
theorem expected_move_min_gets_whole_array :
    (mapAnalysisToRow exC9).scenario1_expected_move_min =
      some (.arr [.num (-10), .num (-18)]) ∧
    (mapAnalysisToRow exC9).scenario1_expected_move_min ≠ some (.num (-10)) ∧
    (mapAnalysisToRow exC9).scenario1_expected_move_max = some (.num (-18)) ∧
    saveAnalysis emptyTable 10 exC9 = .error "invalid input syntax for type numeric" ∧
    ((saveAnalysis emptyTable 10 exC9s).map (fun p =>
      (getAnalysisByDate p.1 "2025-11-30").map
        (fun r => r.data.scenario1_probability))) =
      .ok (some (some (.num (5000/10000)))) ∧
    ((saveAnalysis emptyTable 10 exC9s).map (fun p =>
      (getAnalysisByDate p.1 "2025-11-30").map
        (fun r => r.data.scenario4_probability))) =
      .ok (some (some (.num (800/10000)))) := by
  have hp1 : pgRound 4 (5/10 : ℚ) = 5000/10000 := by
    unfold pgRound
    rw [if_pos (by norm_num)]
    norm_num
  have hp4 : pgRound 4 (8/100 : ℚ) = 800/10000 := by
    unfold pgRound
    rw [if_pos (by norm_num)]
    norm_num
  refine ⟨by decide, by decide, by decide, rfl, ?_, ?_⟩
  · have hstep : ((saveAnalysis emptyTable 10 exC9s).map (fun p =>
        (getAnalysisByDate p.1 "2025-11-30").map
          (fun r => r.data.scenario1_probability))) =
        .ok (some (some (.num (pgRound 4 (5/10))))) := rfl
    rw [hstep, hp1]
  · have hstep : ((saveAnalysis emptyTable 10 exC9s).map (fun p =>
        (getAnalysisByDate p.1 "2025-11-30").map
          (fun r => r.data.scenario4_probability))) =
        .ok (some (some (.num (pgRound 4 (8/100))))) := rfl
    rw [hstep, hp4]
